import Mathlib

/-!
Verification development for the Chat-Bot repository: a browser chat UI
(page component `Page`, message renderer `ChatMessage`) talking to an
external analytics agent, with a Next.js route handler (`ChatRoute.POST`)
acting as an HTTP proxy in front of the agent endpoint.

The embedding is shallow: JavaScript values exchanged as JSON are modelled
by the inductive type `Json`; the stateful React component is modelled by
an explicit state record (`Page.PageState`) with pure transition functions
(`Page.sendMessage`, `Page.completeSend`, `Page.clearChat`); the rendering
decision of `ChatMessage` is modelled by `ChatMessage.renderPath` and the
text formatter by `ChatMessage.formatText`.
-/

/-- JSON values, as exchanged between the browser, the proxy route and the
agent process. Objects are finite key-value lists (keys produced by
JSON parsing are unique). -/
inductive Json where
  | null
  | bool (b : Bool)
  | num (n : Int)
  | str (s : String)
  | arr (elems : List Json)
  | obj (fields : List (String × Json))

namespace Json

/-- Property access `v.k` on a JSON value: defined for objects, `none`
otherwise (modelling the JavaScript `undefined`). -/
def getField : Json → String → Option Json
  | .obj fields, key => List.lookup key fields
  | _, _ => none

end Json

/-- The JavaScript `String.prototype.trim`: remove leading and trailing
whitespace characters. -/
def jsTrim (s : String) : String :=
  String.mk (((s.data.dropWhile Char.isWhitespace).reverse.dropWhile Char.isWhitespace).reverse)

/-- Role of a chat message, from the `MessageRole` union type in
ChatMessage.tsx: `"user" | "agent"`. -/
inductive MessageRole where
  | user
  | agent
deriving DecidableEq

/-- The `Message` interface of ChatMessage.tsx:
`{ id: string, role: MessageRole, content: string | Record<string, unknown>, timestamp: Date }`.
The content union is a `Json` value (strings are `Json.str`); timestamps
are instants modelled as naturals. -/
structure Message where
  id : String
  role : MessageRole
  content : Json
  timestamp : Nat

namespace ChatMessage

/-- The `isVegaSpec` guard of ChatMessage.tsx:
`typeof content === "object" && content !== null && ("mark" in content || "$schema" in content)`.
Arrays are objects for `typeof` but carry neither property, so only
genuine objects with a "mark" or "$schema" key pass. -/
def isVegaSpec : Json → Bool
  | .obj fields => fields.any (fun kv => kv.1 == "mark" || kv.1 == "$schema")
  | _ => false

/-- The error test of ChatMessage.tsx:
`typeof content === "string" && content.toLowerCase().startsWith("error")`,
on character lists: lowercase the characters and compare the first five
with "error". -/
def isErrorContent : Json → Bool
  | .str s => (s.data.map Char.toLower).take 5 = ['e', 'r', 'r', 'o', 'r']
  | _ => false

/-- The four mutually exclusive ways the bubble of a message is rendered
by ChatMessage.tsx: the user bubble, the Vega chart mount, the red
error-styled text bubble, and the ordinary formatted-text bubble. -/
inductive RenderPath where
  | userBubble
  | chart
  | errorBubble
  | formattedText
deriving DecidableEq

/-- The rendering decision of ChatMessage.tsx: `isUser` wins first
(`isChart` and `isError` are both conjoined with `!isUser`), then the
chart test, then the error styling, then plain formatted text. -/
def renderPath (m : Message) : RenderPath :=
  let isUser := m.role == MessageRole.user
  let isChart := !isUser && isVegaSpec m.content
  let isError := !isUser && isErrorContent m.content
  if isUser then RenderPath.userBubble
  else if isChart then RenderPath.chart
  else if isError then RenderPath.errorBubble
  else RenderPath.formattedText

/-- One rendered inline node produced by `formatText`: a verbatim text
span, an emphasized (`<strong>`) span, or a `<br/>`. -/
inductive Inline where
  | plain (s : String)
  | strong (s : String)
  | br
deriving DecidableEq

/-- The `part.startsWith("**")` test, on character lists: the first two
characters are asterisks. Applied to a reversed list it is the
`part.endsWith("**")` test. -/
def startsWithStars (l : List Char) : Bool :=
  l.take 2 = ['*', '*']

/-- One attempt of the regular expression `(\*\*[^*]+\*\*)` at the start
of the input: two asterisks, a nonempty run of non-asterisk characters,
then two asterisks. On success returns the matched characters and the
remainder of the input. -/
def matchBold : List Char → Option (List Char × List Char)
  | c1 :: c2 :: rest =>
    let inner := rest.takeWhile (fun c => c ≠ '*')
    let after := rest.dropWhile (fun c => c ≠ '*')
    if c1 = '*' ∧ c2 = '*' ∧ inner ≠ [] ∧ after.take 2 = ['*', '*'] then
      some ('*' :: '*' :: inner ++ ['*', '*'], after.drop 2)
    else
      none
  | _ => none

/-- The splitter `line.split(/(\*\*[^*]+\*\*)/g)` of JavaScript, scanning
left to right: `acc` holds (reversed) the characters read since the last
match; each match emits the pending text part and the captured match, and
the scan resumes after the match; at the end the pending text is emitted.
Like the JavaScript splitter this keeps empty text parts between
adjacent matches and at either end. Structural recursion on a fuel
argument; every step shortens `l`, so any fuel above `l.length` yields
the fuel-free behaviour (`splitBoldGo_congr`). -/
def splitBoldGo : Nat → List Char → List Char → List (List Char)
  | 0, acc, l => [acc.reverse ++ l]
  | fuel + 1, acc, l =>
    match matchBold l with
    | some (m, rest) => acc.reverse :: m :: splitBoldGo fuel [] rest
    | none =>
      match l with
      | [] => [acc.reverse]
      | c :: cs => splitBoldGo fuel (c :: acc) cs

/-- The splitter applied with sufficient fuel, as `formatText` uses it. -/
def splitBoldCore (acc : List Char) (l : List Char) : List (List Char) :=
  splitBoldGo (l.length + 1) acc l

/-- The `parts.map(...)` body of `formatText`: a part that starts and
ends with a double asterisk becomes an emphasized span with
`part.slice(2, -2)` (drop two characters at each end); every other part
is a verbatim span. -/
def renderPart (part : List Char) : Inline :=
  if startsWithStars part && startsWithStars part.reverse then
    Inline.strong (String.mk (((part.drop 2).reverse.drop 2).reverse))
  else
    Inline.plain (String.mk part)

/-- The inline nodes produced for one line of `formatText`: split on the
bold regular expression, then render each part. -/
def lineNodes (line : List Char) : List Inline :=
  (splitBoldCore [] line).map renderPart

/-- Helper for `splitLines`: first line and remaining lines of a
character list. -/
def splitLinesCore : List Char → List Char × List (List Char)
  | [] => ([], [])
  | c :: cs =>
    let p := splitLinesCore cs
    if c = '\n' then ([], p.1 :: p.2) else (c :: p.1, p.2)

/-- The `text.split("\n")` of JavaScript on character lists: the list of
lines, always nonempty, with empty lines kept. -/
def splitLines (l : List Char) : List (List Char) :=
  (splitLinesCore l).1 :: (splitLinesCore l).2

/-- The `formatText` function of ChatMessage.tsx: split the text on
newlines; render each line by the bold splitter; append a `<br/>` after
every line whose index is below `lines.length - 1`. -/
def formatText (text : String) : List Inline :=
  let lines := splitLines text.toList
  (lines.enum.map (fun p =>
    lineNodes p.2 ++ if p.1 < lines.length - 1 then [Inline.br] else [])).flatten

end ChatMessage

namespace ChatRoute

/-- The fixed upstream agent address from app/api/chat/route.ts. -/
def AGENT_URL : String := "http://127.0.0.1:8001/chat"

/-- Outcome of the proxy's `fetch(AGENT_URL, ...)` call:
either an HTTP response arrived, carrying a status and the result of
parsing its body as JSON (`none` when `response.json()` would throw),
or the fetch itself threw (endpoint unreachable, network failure,
timeout). -/
inductive UpstreamResult where
  | reply (status : Nat) (body : Option Json)
  | unreachable

/-- An HTTP response produced by the route handler: status code plus the
JSON body passed to `NextResponse.json`. -/
structure ProxyResponse where
  status : Nat
  body : Json

/-- The fallback response built in the catch block of the route handler:
status 502 and the fixed operator-facing message. -/
def fallback : ProxyResponse :=
  { status := 502,
    body := Json.obj [("response",
      Json.str "Cannot reach the agent backend. Make sure chatbot_agent.py is running on port 8001.")] }

/-- The `response.ok` predicate of the Fetch API: status in the range
200-299. -/
def responseOk (status : Nat) : Bool :=
  200 ≤ status && status ≤ 299

/-- The `POST` handler of app/api/chat/route.ts. Its input is the result
of `req.json()` (`none` when the request body is not valid JSON, making
that call throw) and the behaviour of the upstream endpoint as a function
of the forwarded body. It returns the response sent to the caller paired
with the body actually forwarded upstream (`none` when the upstream was
never contacted). -/
def POST (reqBody : Option Json) (upstream : Json → UpstreamResult) :
    ProxyResponse × Option Json :=
  match reqBody with
  | none => (fallback, none)
  | some body =>
    match upstream body with
    | .unreachable => (fallback, some body)
    | .reply status respBody =>
      if !responseOk status then
        ({ status := status,
           body := Json.obj [("error", Json.str ("Agent returned " ++ toString status))] },
         some body)
      else
        match respBody with
        | none => (fallback, some body)
        | some data => ({ status := 200, body := data }, some body)

end ChatRoute

namespace Page

/-- The fixed agent address from app/page.tsx line 8. The page component
fetches this address directly in `sendMessage`. -/
def AGENT_URL : String := "http://127.0.0.1:8001/chat"

/-- The fixed welcome message from app/page.tsx. Its timestamp is the
module-load instant, modelled as 0. -/
def WELCOME : Message :=
  { id := "welcome",
    role := MessageRole.agent,
    content := Json.str "Hi! I'm your **AI Real Estate Analyst**. I can help you explore the California Housing dataset — find specific properties, compare prices, or generate charts.\n\nTry one of the suggestions below, or ask me anything!",
    timestamp := 0 }

/-- The React state of the page component: the `messages`, `input`,
`isLoading` and `showWelcome` useState hooks. -/
structure PageState where
  messages : List Message
  input : String
  isLoading : Bool
  showWelcome : Bool

/-- The initial values of the four useState hooks. -/
def initialState : PageState :=
  { messages := [WELCOME], input := "", isLoading := false, showWelcome := true }

/-- An outbound HTTP request issued by the page component: target URL and
JSON body. -/
structure ChatRequest where
  url : String
  body : Json

/-- The synchronous part of `sendMessage` in app/page.tsx: trim the text;
if the trimmed text is empty or a request is already loading, do nothing;
otherwise clear the input and welcome hero, append the optimistic user
message, set the loading flag, and issue the request
`fetch(AGENT_URL, { body: JSON.stringify({ message: trimmed }) })`.
`newId` stands for `crypto.randomUUID()` and `now` for `new Date()`.
Returns the updated state and the request issued, if any. -/
def sendMessage (s : PageState) (text : String) (newId : String) (now : Nat) :
    PageState × Option ChatRequest :=
  let trimmed := jsTrim text
  if trimmed = "" ∨ s.isLoading then
    (s, none)
  else
    ({ s with
        showWelcome := false,
        input := "",
        messages := s.messages ++
          [{ id := newId, role := MessageRole.user, content := Json.str trimmed, timestamp := now }],
        isLoading := true },
     some { url := AGENT_URL, body := Json.obj [("message", Json.str trimmed)] })

/-- How the awaited fetch inside `sendMessage` terminates:
`success data` is an ok response whose body parsed to `data`;
`httpError status` is a non-ok response (the handler throws
`Server error: status`); `jsonError` is an ok response whose body failed
to parse; `networkError` is a rejected fetch other than an abort; and
`aborted` is a fetch rejected with an `AbortError`. -/
inductive FetchOutcome where
  | success (data : Json)
  | httpError (status : Nat)
  | jsonError
  | networkError
  | aborted

/-- The error message appended by the catch block of `sendMessage`. -/
def errorText : String :=
  "Error: Could not reach the agent. Make sure chatbot_agent.py is running on port 8001."

/-- The asynchronous completion of `sendMessage`: on success append one
agent message whose content is `data.response`; on an AbortError return
without appending anything; on any other failure append the fixed error
message. The finally block always clears the loading flag. -/
def completeSend (s : PageState) (outcome : FetchOutcome) (newId : String) (now : Nat) :
    PageState :=
  match outcome with
  | .success data =>
    let raw := (data.getField "response").getD Json.null
    { s with
        messages := s.messages ++
          [{ id := newId, role := MessageRole.agent, content := raw, timestamp := now }],
        isLoading := false }
  | .aborted => { s with isLoading := false }
  | _ =>
    { s with
        messages := s.messages ++
          [{ id := newId, role := MessageRole.agent, content := Json.str errorText, timestamp := now }],
        isLoading := false }

/-- The `clearChat` handler of app/page.tsx: replace the message list by
the single welcome message and restore the welcome hero flag. -/
def clearChat (s : PageState) : PageState :=
  { s with messages := [WELCOME], showWelcome := true }

end Page

namespace ChatMessage

/-- The remainder returned by a successful `matchBold` is strictly
shorter than the input (the match consumes at least the two leading
asterisks). -/
theorem matchBold_rest_lt {l m rest : List Char} (h : matchBold l = some (m, rest)) :
    rest.length < l.length := by
  match l with
  | [] => simp [matchBold] at h
  | [c] => simp [matchBold] at h
  | c1 :: c2 :: t =>
    rw [matchBold] at h
    split at h
    · have hdw : (t.dropWhile (fun c => c ≠ '*')).length ≤ t.length :=
        (List.dropWhile_sublist _).length_le
      have : rest = (t.dropWhile (fun c => c ≠ '*')).drop 2 := by
        injection h with h1
        injection h1 with _ h2
        exact h2.symm
      subst this
      simp only [List.length_drop, List.length_cons]
      omega
    · exact absurd h (by simp)

/-- Any two fuel values above the input length give the same split, so
`splitBoldCore` is the unique fixpoint of the scan. -/
theorem splitBoldGo_congr :
    ∀ (f g : Nat) (acc l : List Char), l.length < f → l.length < g →
      splitBoldGo f acc l = splitBoldGo g acc l := by
  intro f
  induction f with
  | zero => intro g acc l hf; omega
  | succ f ih =>
    intro g acc l hf hg
    match g with
    | 0 => omega
    | g + 1 =>
      simp only [splitBoldGo]
      cases hm : matchBold l with
      | some p =>
        obtain ⟨m1, r1⟩ := p
        have hlt := matchBold_rest_lt hm
        simp only [ih g [] r1 (by omega) (by omega)]
      | none =>
        cases l with
        | nil => rfl
        | cons c cs =>
          simp only [List.length_cons] at hf hg
          exact ih g (c :: acc) cs (by omega) (by omega)

/-- A match attempt fails whenever the first character is not an
asterisk. -/
theorem matchBold_none_head {c : Char} (cs : List Char) (hc : c ≠ '*') :
    matchBold (c :: cs) = none := by
  cases cs with
  | nil => rfl
  | cons c2 t =>
    rw [matchBold]
    rw [if_neg]
    intro hcon
    exact hc hcon.1

/-- Scanning a star-free list finds no match and returns the pending text
followed by the whole list. -/
theorem splitBoldGo_no_star :
    ∀ (fuel : Nat) (acc l : List Char), l.length < fuel → (∀ c ∈ l, c ≠ '*') →
      splitBoldGo fuel acc l = [acc.reverse ++ l] := by
  intro fuel
  induction fuel with
  | zero => intro acc l hf; omega
  | succ fuel ih =>
    intro acc l hf hl
    cases l with
    | nil => simp [splitBoldGo, matchBold]
    | cons c cs =>
      have hc : c ≠ '*' := hl c (by simp)
      simp only [splitBoldGo, matchBold_none_head cs hc]
      rw [ih (c :: acc) cs (by simp at hf; omega) (fun x hx => hl x (by simp [hx]))]
      simp

/-- Scanning `a ++ ** b ** c` with `a`, `b`, `c` star-free and `b`
nonempty: the scan passes over `a`, matches `**b**`, and the remainder
`c` has no further match. -/
theorem splitBoldGo_bold :
    ∀ (a : List Char) (fuel : Nat) (acc b c : List Char),
      (a ++ '*' :: '*' :: (b ++ '*' :: '*' :: c)).length < fuel →
      (∀ ch ∈ a, ch ≠ '*') → (∀ ch ∈ b, ch ≠ '*') → (∀ ch ∈ c, ch ≠ '*') → b ≠ [] →
      splitBoldGo fuel acc (a ++ '*' :: '*' :: (b ++ '*' :: '*' :: c)) =
        [acc.reverse ++ a, '*' :: '*' :: b ++ ['*', '*'], c] := by
  intro a
  induction a with
  | nil =>
    intro fuel acc b c hf ha hb hc hbne
    match fuel with
    | 0 => simp at hf
    | fuel + 1 =>
      have hbP : ∀ ch ∈ b, (fun x => decide (x ≠ '*')) ch = true := by
        intro ch hch; simpa using hb ch hch
      have hmatch : matchBold ('*' :: '*' :: (b ++ '*' :: '*' :: c)) =
          some ('*' :: '*' :: b ++ ['*', '*'], c) := by
        rw [matchBold]
        rw [List.takeWhile_append_of_pos hbP, List.dropWhile_append_of_pos hbP]
        rw [if_pos]
        · simp [List.takeWhile_cons, List.dropWhile_cons]
        · refine ⟨rfl, rfl, ?_, ?_⟩
          · simp [List.takeWhile_cons, hbne]
          · simp [List.dropWhile_cons]
      simp only [List.nil_append, splitBoldGo, hmatch]
      rw [splitBoldGo_no_star fuel [] c (by simp at hf ⊢; omega) hc]
      simp
  | cons x xs ih =>
    intro fuel acc b c hf ha hb hc hbne
    match fuel with
    | 0 => simp at hf
    | fuel + 1 =>
      have hx : x ≠ '*' := ha x (by simp)
      simp only [List.cons_append, splitBoldGo,
        matchBold_none_head (xs ++ '*' :: '*' :: (b ++ '*' :: '*' :: c)) hx]
      rw [ih fuel (x :: acc) b c (by simp at hf ⊢; omega)
        (fun ch hch => ha ch (by simp [hch])) hb hc hbne]
      simp

/-- A star-free part (in particular any text part between matches) is
rendered verbatim. -/
theorem renderPart_no_star {l : List Char} (h : ∀ c ∈ l, c ≠ '*') :
    renderPart l = Inline.plain (String.mk l) := by
  rw [renderPart, if_neg]
  intro hcon
  rw [Bool.and_eq_true] at hcon
  have h1 := hcon.1
  rw [startsWithStars] at h1
  cases l with
  | nil => simp at h1
  | cons c cs =>
    have : c = '*' := by
      simp [List.take] at h1
      exact h1.1
    exact h c (by simp) this

/-- A captured match `**b**` is rendered as an emphasized span holding
exactly the inner text, the four marker characters removed. -/
theorem renderPart_bold (b : List Char) :
    renderPart ('*' :: '*' :: b ++ ['*', '*']) = Inline.strong (String.mk b) := by
  have hrev : ('*' :: '*' :: b ++ ['*', '*']).reverse = '*' :: '*' :: (b.reverse ++ ['*', '*']) := by
    simp
  have h1 : startsWithStars ('*' :: '*' :: b ++ ['*', '*']) = true := by
    simp [startsWithStars]
  have h2 : startsWithStars ('*' :: '*' :: b ++ ['*', '*']).reverse = true := by
    rw [hrev]
    simp [startsWithStars]
  rw [renderPart, if_pos (by rw [h1, h2]; rfl)]
  have hd : List.drop 2 ('*' :: '*' :: b ++ ['*', '*']) = b ++ ['*', '*'] := rfl
  rw [hd]
  have h3 : (b ++ ['*', '*']).reverse = '*' :: '*' :: b.reverse := by simp
  rw [h3]
  have h4 : List.drop 2 ('*' :: '*' :: b.reverse) = b.reverse := rfl
  rw [h4, List.reverse_reverse]

/-- The inline nodes of a star-free line: one verbatim span. -/
theorem lineNodes_no_star {l : List Char} (h : ∀ c ∈ l, c ≠ '*') :
    lineNodes l = [Inline.plain (String.mk l)] := by
  rw [lineNodes, splitBoldCore, splitBoldGo_no_star _ [] l (by omega) h]
  simp [renderPart_no_star h]

/-- The inline nodes of a line of the shape `a**b**c` with `a`, `b`, `c`
star-free and `b` nonempty: verbatim `a`, emphasized `b`, verbatim `c`. -/
theorem lineNodes_bold {a b c : List Char}
    (ha : ∀ ch ∈ a, ch ≠ '*') (hb : ∀ ch ∈ b, ch ≠ '*') (hc : ∀ ch ∈ c, ch ≠ '*')
    (hbne : b ≠ []) :
    lineNodes (a ++ '*' :: '*' :: (b ++ '*' :: '*' :: c)) =
      [Inline.plain (String.mk a), Inline.strong (String.mk b), Inline.plain (String.mk c)] := by
  rw [lineNodes, splitBoldCore, splitBoldGo_bold a _ [] b c (by omega) ha hb hc hbne]
  simp only [List.reverse_nil, List.nil_append, List.map_cons, List.map_nil]
  rw [renderPart_no_star ha, renderPart_no_star hc, renderPart_bold]

/-- A newline-free text is a single line. -/
theorem splitLinesCore_no_newline :
    ∀ l : List Char, (∀ c ∈ l, c ≠ '\n') → splitLinesCore l = (l, []) := by
  intro l
  induction l with
  | nil => intro _; rfl
  | cons c cs ih =>
    intro h
    have hc : c ≠ '\n' := h c (by simp)
    simp [splitLinesCore, ih (fun x hx => h x (by simp [hx])), hc]

/-- Splitting at the first newline: the newline-free prefix becomes the
first line and the rest of the text is split recursively. -/
theorem splitLinesCore_append (s t : List Char) (hs : ∀ c ∈ s, c ≠ '\n') :
    splitLinesCore (s ++ '\n' :: t) = (s, splitLines t) := by
  induction s with
  | nil => simp [splitLinesCore, splitLines]
  | cons c cs ih =>
    have hc : c ≠ '\n' := hs c (by simp)
    have ih' := ih (fun x hx => hs x (by simp [hx]))
    simp [splitLinesCore, hc, ih']

/-- The `text.split("\n")` property at the `splitLines` level. -/
theorem splitLines_append (s t : List Char) (hs : ∀ c ∈ s, c ≠ '\n') :
    splitLines (s ++ '\n' :: t) = s :: splitLines t := by
  rw [splitLines, splitLinesCore_append s t hs]

/-- A newline-free text yields exactly one line. -/
theorem splitLines_no_newline {l : List Char} (h : ∀ c ∈ l, c ≠ '\n') :
    splitLines l = [l] := by
  rw [splitLines, splitLinesCore_no_newline l h]

/-- The index-based `<br/>` insertion of `formatText` (append a break
after every line whose index is below the line count minus one) is the
same as interspersing a break between consecutive lines: a break between
any two lines, none after the last. -/
theorem flatten_enumFrom_br :
    ∀ (L : List (List Char)) (n m : Nat), m + 1 = n + L.length →
      ((L.enumFrom n).map (fun p =>
          lineNodes p.2 ++ if p.1 < m then [Inline.br] else [])).flatten =
        ((L.map lineNodes).intersperse [Inline.br]).flatten := by
  intro L
  induction L with
  | nil => intro n m h; simp
  | cons x xs ih =>
    intro n m h
    cases xs with
    | nil =>
      have hnm : ¬ (n < m) := by simp at h; omega
      simp [List.enumFrom, hnm]
    | cons y ys =>
      rw [List.enumFrom_cons]
      simp only [List.map_cons, List.flatten_cons]
      rw [ih (n + 1) m (by simp at h ⊢; omega)]
      have hlt : n < m := by simp at h; omega
      simp only [if_pos hlt, List.map_cons, List.intersperse_cons_cons, List.flatten_cons,
        List.append_assoc]

/-- The rendering of `formatText` as lines joined by breaks. -/
theorem formatText_intersperse (text : String) :
    formatText text =
      (((splitLines text.toList).map lineNodes).intersperse [Inline.br]).flatten := by
  rw [formatText, List.enum_eq_enumFrom]
  exact flatten_enumFrom_br (splitLines text.toList) 0 ((splitLines text.toList).length - 1)
    (by rw [splitLines]; simp)

end ChatMessage

/-- C1 counterexample: on a fresh state with input "hi" the Conversation
Controller issues its request to the agent address
http://127.0.0.1:8001/chat, which is not the proxy endpoint /api/chat. -/
theorem C1_counterexample :
    (Page.sendMessage Page.initialState "hi" "id1" 0).2 =
      some { url := "http://127.0.0.1:8001/chat",
             body := Json.obj [("message", Json.str "hi")] } ∧
    "http://127.0.0.1:8001/chat" ≠ "/api/chat" :=
  ⟨rfl, by decide⟩

/-- C1 (amended): every outbound request the Conversation Controller
issues goes directly to the external agent endpoint
http://127.0.0.1:8001/chat, bypassing the /api/chat Proxy Handler. -/
theorem C1_sendMessage_targets_agent_directly :
    ∀ (s : Page.PageState) (text newId : String) (now : Nat) (r : Page.ChatRequest),
      (Page.sendMessage s text newId now).2 = some r →
      r.url = Page.AGENT_URL ∧ Page.AGENT_URL = "http://127.0.0.1:8001/chat" ∧
        Page.AGENT_URL ≠ "/api/chat" := by
  intro s text newId now r h
  refine ⟨?_, rfl, by decide⟩
  simp only [Page.sendMessage] at h
  split at h
  · exact absurd h (by simp)
  · have hr : r = { url := Page.AGENT_URL, body := Json.obj [("message", Json.str (jsTrim text))] } := by
      injection h with h1
      exact h1.symm
    rw [hr]

/-- C1 witness: the amended theorem applied to the fresh state and the
input "hi". -/
theorem C1_witness :
    ({ url := Page.AGENT_URL, body := Json.obj [("message", Json.str "hi")] } :
        Page.ChatRequest).url = Page.AGENT_URL ∧
      Page.AGENT_URL = "http://127.0.0.1:8001/chat" ∧ Page.AGENT_URL ≠ "/api/chat" :=
  C1_sendMessage_targets_agent_directly Page.initialState "hi" "id1" 0 _ rfl

/-- C2 counterexample: a user-role message whose content is an object
with a "mark" key does not render via the chart path (it renders as the
user bubble), so the chart path is not taken regardless of role. -/
theorem C2_counterexample :
    ChatMessage.isVegaSpec (Json.obj [("mark", Json.str "bar")]) = true ∧
    ChatMessage.renderPath { id := "m", role := MessageRole.user, content := Json.obj [("mark", Json.str "bar")], timestamp := 0 } ≠
      ChatMessage.RenderPath.chart := by
  constructor
  · rfl
  · decide

/-- C2 (amended): every agent-role message whose content is a structured
object containing a "mark" or "$schema" key renders via the chart path;
user-role messages always render via the user bubble instead. -/
theorem C2_agent_chart_path :
    (∀ m : Message, m.role = MessageRole.agent →
        ChatMessage.isVegaSpec m.content = true →
        ChatMessage.renderPath m = ChatMessage.RenderPath.chart)
  ∧ (∀ m : Message, m.role = MessageRole.user →
        ChatMessage.renderPath m = ChatMessage.RenderPath.userBubble) := by
  constructor
  · intro m hrole hvega
    simp [ChatMessage.renderPath, hrole, hvega]
  · intro m hrole
    simp [ChatMessage.renderPath, hrole]

/-- C2 witness: the amended theorem applied to a concrete agent message
carrying a chart specification. -/
theorem C2_witness :
    ChatMessage.renderPath { id := "w", role := MessageRole.agent, content := Json.obj [("mark", Json.str "bar")], timestamp := 0 } =
      ChatMessage.RenderPath.chart :=
  C2_agent_chart_path.1 _ rfl rfl

/-- C3: the formatted-text path. First conjunct: the break insertion of
`formatText` equals interspersing a line break between consecutive lines
(none after the last). Second: the text is split exactly at newline
characters. Third: within a line, a substring delimited by double
asterisks is rendered as an emphasized span with the markers removed,
with the surrounding text verbatim. Fourth: a line without asterisks is
rendered verbatim. Fifth: the concrete example "Price: **$500k**\nLocation:
LA" yields two lines with "$500k" emphasized and "LA" plain. -/
theorem C3_formatText_spec :
    (∀ text : String, ChatMessage.formatText text =
        (((ChatMessage.splitLines text.toList).map ChatMessage.lineNodes).intersperse
          [ChatMessage.Inline.br]).flatten)
  ∧ (∀ s t : List Char, (∀ c ∈ s, c ≠ '\n') →
        ChatMessage.splitLines (s ++ '\n' :: t) = s :: ChatMessage.splitLines t)
  ∧ (∀ a b c : List Char, (∀ ch ∈ a, ch ≠ '*') → (∀ ch ∈ b, ch ≠ '*') →
        (∀ ch ∈ c, ch ≠ '*') → b ≠ [] →
        ChatMessage.lineNodes (a ++ '*' :: '*' :: (b ++ '*' :: '*' :: c)) =
          [ChatMessage.Inline.plain (String.mk a), ChatMessage.Inline.strong (String.mk b),
            ChatMessage.Inline.plain (String.mk c)])
  ∧ (∀ l : List Char, (∀ c ∈ l, c ≠ '*') →
        ChatMessage.lineNodes l = [ChatMessage.Inline.plain (String.mk l)])
  ∧ ChatMessage.formatText "Price: **$500k**\nLocation: LA" =
      [ChatMessage.Inline.plain "Price: ", ChatMessage.Inline.strong "$500k",
        ChatMessage.Inline.plain "", ChatMessage.Inline.br,
        ChatMessage.Inline.plain "Location: LA"] :=
  ⟨ChatMessage.formatText_intersperse,
   ChatMessage.splitLines_append,
   fun _ _ _ ha hb hc hbne => ChatMessage.lineNodes_bold ha hb hc hbne,
   fun _ hl => ChatMessage.lineNodes_no_star hl,
   by decide⟩

/-- C3 witness: the emphasized-span conjunct applied to the parts of the
first line of the concrete example. -/
theorem C3_witness :
    ChatMessage.lineNodes ("Price: ".toList ++ '*' :: '*' :: ("$500k".toList ++ '*' :: '*' :: [])) =
      [ChatMessage.Inline.plain (String.mk "Price: ".toList),
        ChatMessage.Inline.strong (String.mk "$500k".toList),
        ChatMessage.Inline.plain (String.mk [])] :=
  C3_formatText_spec.2.2.1 "Price: ".toList "$500k".toList []
    (by decide) (by decide) (by decide) (by decide)

/-- C4: a send while a request is in flight, or with input that trims to
empty, is a no-op (state unchanged, no request issued); and whenever a
request is issued the state was not loading before and is loading after,
which is the single-flight invariant. -/
theorem C4_single_flight :
    (∀ (s : Page.PageState) (text newId : String) (now : Nat),
        s.isLoading = true ∨ jsTrim text = "" →
        Page.sendMessage s text newId now = (s, none))
  ∧ (∀ (s : Page.PageState) (text newId : String) (now : Nat) (r : Page.ChatRequest),
        (Page.sendMessage s text newId now).2 = some r →
        s.isLoading = false ∧ (Page.sendMessage s text newId now).1.isLoading = true) := by
  constructor
  · intro s text newId now h
    rw [Page.sendMessage, if_pos (h.elim Or.inr Or.inl)]
  · intro s text newId now r h
    rw [Page.sendMessage] at h ⊢
    split at h
    · exact absurd h (by simp)
    · rename_i hcond
      rw [if_neg hcond]
      constructor
      · rcases Bool.eq_false_or_eq_true s.isLoading with hb | hb
        · exact absurd (Or.inr hb) hcond
        · exact hb
      · rfl

/-- C4 witness: the no-op conjunct applied to a loading state with
input "hi". -/
theorem C4_witness :
    Page.sendMessage { messages := [Page.WELCOME], input := "", isLoading := true, showWelcome := false } "hi" "i" 0 =
      ({ messages := [Page.WELCOME], input := "", isLoading := true, showWelcome := false }, none) :=
  C4_single_flight.1 _ "hi" "i" 0 (Or.inl rfl)

/-- C5: a request that terminates by abort leaves the message list
unchanged (no agent message, in particular no error message, is
appended); only the loading flag is cleared. -/
theorem C5_abort_silent :
    ∀ (s : Page.PageState) (newId : String) (now : Nat),
      Page.completeSend s Page.FetchOutcome.aborted newId now = { s with isLoading := false } ∧
      (Page.completeSend s Page.FetchOutcome.aborted newId now).messages = s.messages :=
  fun _ _ _ => ⟨rfl, rfl⟩

/-- C9: resetting the conversation yields exactly one message, the fixed
welcome message, and restores the first-visit flag to its initial
value. -/
theorem C9_clearChat_resets :
    ∀ s : Page.PageState,
      (Page.clearChat s).messages = [Page.WELCOME] ∧
      (Page.clearChat s).messages.length = 1 ∧
      (Page.clearChat s).showWelcome = Page.initialState.showWelcome :=
  fun _ => ⟨rfl, rfl, rfl⟩

/-- C6: for every valid JSON request body, when the upstream responds
with a 2xx status and a JSON body, the proxy forwards the request body
unmodified (the forwarded body equals the received body) and returns the
upstream JSON body unchanged. -/
theorem C6_proxy_passthrough :
    ∀ (body : Json) (upstream : Json → ChatRoute.UpstreamResult) (status : Nat) (data : Json),
      upstream body = ChatRoute.UpstreamResult.reply status (some data) →
      200 ≤ status → status ≤ 299 →
      ChatRoute.POST (some body) upstream = ({ status := 200, body := data }, some body) := by
  intro body upstream status data hup h1 h2
  have hok : ChatRoute.responseOk status = true := by
    simp [ChatRoute.responseOk]
    omega
  simp [ChatRoute.POST, hup, hok]

/-- C6 witness: the theorem applied to a concrete body and a 200
upstream reply. -/
theorem C6_witness :
    ChatRoute.POST (some (Json.str "q"))
        (fun _ => ChatRoute.UpstreamResult.reply 200 (some (Json.str "ok"))) =
      ({ status := 200, body := Json.str "ok" }, some (Json.str "q")) :=
  C6_proxy_passthrough (Json.str "q") _ 200 (Json.str "ok") rfl (by decide) (by decide)

/-- C7: when the upstream replies with a status of at least 400, the
proxy returns a JSON error object naming the upstream status and its own
response status equals the upstream status. -/
theorem C7_error_propagation :
    ∀ (body : Json) (upstream : Json → ChatRoute.UpstreamResult) (status : Nat)
      (respBody : Option Json),
      upstream body = ChatRoute.UpstreamResult.reply status respBody →
      400 ≤ status →
      ChatRoute.POST (some body) upstream =
        ({ status := status,
           body := Json.obj [("error", Json.str ("Agent returned " ++ toString status))] },
         some body) := by
  intro body upstream status respBody hup h4
  have hok : ChatRoute.responseOk status = false := by
    simp [ChatRoute.responseOk]
    omega
  simp [ChatRoute.POST, hup, hok]

/-- C7 witness: the theorem applied to a concrete body and a 404
upstream reply. -/
theorem C7_witness :
    ChatRoute.POST (some (Json.str "q")) (fun _ => ChatRoute.UpstreamResult.reply 404 none) =
      ({ status := 404,
         body := Json.obj [("error", Json.str ("Agent returned " ++ toString 404))] },
       some (Json.str "q")) :=
  C7_error_propagation (Json.str "q") _ 404 none rfl (by decide)

/-- C8: whenever the upstream is unreachable (the fetch throws), or an
ok upstream response has a body that fails to parse as JSON, or the
request body itself never parsed, the proxy returns the fixed fallback:
status 502 and the single-field object telling the operator to make sure
the backend process is running, independent of the request content. -/
theorem C8_unreachable_fallback :
    (∀ (body : Json) (upstream : Json → ChatRoute.UpstreamResult),
        upstream body = ChatRoute.UpstreamResult.unreachable →
        ChatRoute.POST (some body) upstream = (ChatRoute.fallback, some body))
  ∧ (∀ (body : Json) (upstream : Json → ChatRoute.UpstreamResult) (status : Nat),
        upstream body = ChatRoute.UpstreamResult.reply status none →
        ChatRoute.responseOk status = true →
        ChatRoute.POST (some body) upstream = (ChatRoute.fallback, some body))
  ∧ (∀ upstream : Json → ChatRoute.UpstreamResult,
        ChatRoute.POST none upstream = (ChatRoute.fallback, none))
  ∧ ChatRoute.fallback.status = 502
  ∧ ChatRoute.fallback.body = Json.obj [("response",
      Json.str "Cannot reach the agent backend. Make sure chatbot_agent.py is running on port 8001.")] := by
  refine ⟨?_, ?_, fun _ => rfl, rfl, rfl⟩
  · intro body upstream hup
    simp [ChatRoute.POST, hup]
  · intro body upstream status hup hok
    simp [ChatRoute.POST, hup, hok]

/-- C8 witness: the unreachable conjunct applied to a concrete body. -/
theorem C8_witness :
    ChatRoute.POST (some (Json.str "hello")) (fun _ => ChatRoute.UpstreamResult.unreachable) =
      (ChatRoute.fallback, some (Json.str "hello")) :=
  C8_unreachable_fallback.1 (Json.str "hello") _ rfl

/-- C10: a request whose body is not valid JSON yields the same 502
fallback response as an unreachable upstream, with no upstream contact
(the forwarded body is `none`); at the public interface the two failures
are indistinguishable. -/
theorem C10_invalid_body_fallback :
    (∀ upstream : Json → ChatRoute.UpstreamResult,
        ChatRoute.POST none upstream = (ChatRoute.fallback, none))
  ∧ (∀ (upstream : Json → ChatRoute.UpstreamResult) (body : Json),
        upstream body = ChatRoute.UpstreamResult.unreachable →
        (ChatRoute.POST none upstream).1 = (ChatRoute.POST (some body) upstream).1) := by
  refine ⟨fun _ => rfl, ?_⟩
  intro upstream body hup
  simp [ChatRoute.POST, hup]

/-- C10 witness: the indistinguishability conjunct applied to a concrete
body and an unreachable upstream. -/
theorem C10_witness :
    (ChatRoute.POST none (fun _ => ChatRoute.UpstreamResult.unreachable)).1 =
      (ChatRoute.POST (some (Json.str "x")) (fun _ => ChatRoute.UpstreamResult.unreachable)).1 :=
  C10_invalid_body_fallback.2 _ (Json.str "x") rfl
